import Mathlib

/-!
Verification development for the RegosPartnerBot core: a shallow embedding of
the message splitter (`src/core/message_utils.py`), the bot registry and the
conversation dispatcher (`src/bot_manager.py`), the external-event webhook
router (`src/regos/webhook_handler.py`) and the schedule engine
(`src/scheduler.py`), with theorems about the behaviour of those functions.

Modelling conventions:
* Python text is modelled as `List Char`; Python `None`-able values as
  `Option`; a missing dictionary key is `none`.
* Python dictionaries that preserve insertion order are modelled as
  association lists with unique keys.
* Numeric amounts handled through `float(...)` in the source are modelled as
  exact integers.
* The network collaborators (Telegram API, REGOS back-office API, database
  repositories) are modelled as environment records of pure functions, and
  each outward call is recorded in an explicit effect trace.
-/

namespace RegosBot

/-! ## src/core/message_utils.py -/

/-- `chunk.rfind('\n')` (src/core/message_utils.py line 27): the index of the
last occurrence of `c` in `l`, and `-1` when `c` does not occur. -/
def pyRfind (l : List Char) (c : Char) : Int :=
  match l with
  | [] => -1
  | x :: xs =>
    let r := pyRfind xs c
    if r ≥ 0 then r + 1
    else if x = c then 0 else -1

/-- The `while` loop of `split_message` together with the trailing
`if remaining: chunks.append(remaining)` (src/core/message_utils.py lines
21-41), specialised to the default `max_length = 4096` (the only value the
program uses; `BotManager.send_message` passes 4096 explicitly).  The Python
guard `last_newline > max_length * 0.8` compares an integer against the
float `3276.8`, which for an integer left-hand side is exactly
`10 * last_newline > 8 * 4096`. -/
def splitLoop (remaining : List Char) : List (List Char) :=
  if h : 4096 < remaining.length then
    if 10 * pyRfind (remaining.take 4096) '\n' > 8 * 4096 then
      remaining.take ((pyRfind (remaining.take 4096) '\n').toNat + 1) ::
        splitLoop (remaining.drop ((pyRfind (remaining.take 4096) '\n').toNat + 1))
    else
      remaining.take 4096 :: splitLoop (remaining.drop 4096)
  else if remaining = [] then [] else [remaining]
termination_by remaining.length
decreasing_by
  · simp only [List.length_drop]
    omega
  · simp only [List.length_drop]
    omega

/-- `split_message(text)` (src/core/message_utils.py lines 6-42) at the
default `max_length = 4096`: a text not exceeding the limit is returned as a
single chunk (even when empty), otherwise the splitting loop runs. -/
def split_message (text : List Char) : List (List Char) :=
  if text.length ≤ 4096 then [text] else splitLoop text

/-- `pyRfind` never reaches the length of the list. -/
theorem pyRfind_lt_length (l : List Char) (c : Char) : pyRfind l c < (l.length : Int) := by
  induction l with
  | nil => simp [pyRfind]
  | cons x xs ih =>
    simp only [pyRfind, List.length_cons]
    split
    · push_cast
      omega
    · split <;> push_cast <;> omega

/-- If `c` does not occur in `l` then `pyRfind l c = -1`. -/
theorem pyRfind_eq_neg_one (l : List Char) (c : Char) (h : c ∉ l) : pyRfind l c = -1 := by
  induction l with
  | nil => rfl
  | cons x xs ih =>
    simp only [List.mem_cons, not_or] at h
    simp only [pyRfind, ih h.2]
    have hx : ¬ x = c := fun hxc => h.1 hxc.symm
    simp [hx]

/-- Every chunk produced by the splitting loop has length at most 4096. -/
theorem splitLoop_length_le (l : List Char) :
    ∀ ch ∈ splitLoop l, ch.length ≤ 4096 := by
  intro ch hch
  rw [splitLoop] at hch
  split at hch
  · next h =>
    split at hch
    · next hnl =>
      rcases List.mem_cons.1 hch with hc | hc
      · subst hc
        have hlt : pyRfind (l.take 4096) '\n' < ((l.take 4096).length : Int) :=
          pyRfind_lt_length _ _
        have hlen : (l.take 4096).length = 4096 := by
          simp [List.length_take]
          omega
        rw [hlen] at hlt
        simp only [List.length_take]
        omega
      · exact splitLoop_length_le _ ch hc
    · rcases List.mem_cons.1 hch with hc | hc
      · subst hc
        simp [List.length_take]
      · exact splitLoop_length_le _ ch hc
  · next h =>
    split at hch
    · simp at hch
    · rcases List.mem_cons.1 hch with hc | hc
      · subst hc
        omega
      · simp at hc
termination_by l.length
decreasing_by
  · simp only [List.length_drop]
    have := pyRfind_lt_length (l.take 4096) '\n'
    omega
  · simp only [List.length_drop]
    omega

/-- Concatenating the chunks of the splitting loop restores the input. -/
theorem splitLoop_join (l : List Char) : (splitLoop l).flatten = l := by
  rw [splitLoop]
  split
  · next h =>
    split
    · simp [splitLoop_join (l.drop ((pyRfind (l.take 4096) '\n').toNat + 1))]
    · simp [splitLoop_join (l.drop 4096)]
  · next h =>
    split
    · next he => simp [he]
    · simp
termination_by l.length
decreasing_by
  · simp only [List.length_drop]
    have := pyRfind_lt_length (l.take 4096) '\n'
    omega
  · simp only [List.length_drop]
    omega

/-- Unfolding step of the loop when the 4096-character window holds no
newline: the chunk is the bare 4096-character prefix. -/
theorem splitLoop_step_no_newline (l : List Char) (h : 4096 < l.length)
    (hn : Char.ofNat 10 ∉ l) :
    splitLoop l = l.take 4096 :: splitLoop (l.drop 4096) := by
  have hn' : Char.ofNat 10 ∉ l.take 4096 := fun hm => hn (List.mem_of_mem_take hm)
  have hr : pyRfind (l.take 4096) (Char.ofNat 10) = -1 := pyRfind_eq_neg_one _ _ hn'
  rw [splitLoop]
  have hnl : '\n' = Char.ofNat 10 := rfl
  rw [dif_pos h]
  simp only [hnl, hr]
  norm_num

/-- Terminal step of the loop: a non-empty remainder within the limit is
emitted as the final chunk. -/
theorem splitLoop_last (l : List Char) (h : ¬ 4096 < l.length) (hne : l ≠ []) :
    splitLoop l = [l] := by
  rw [splitLoop]
  rw [dif_neg h, if_neg hne]

/-- A single `sendMessage` HTTP payload as assembled inside the chunk loop of
`BotManager.send_message` (src/bot_manager.py lines 288-298).  The markup
value is kept abstract in the type parameter `α`. -/
structure SendPayload (α : Type) where
  chat_id : Int
  text : List Char
  parse_mode : Option String
  reply_markup : Option α

/-- The sequence of `sendMessage` payloads produced by
`BotManager.send_message` (src/bot_manager.py lines 257-320): the text is
split with `split_message(text, max_length=4096)` and the loop attaches
`reply_markup` only at chunk index 0 (`if reply_markup and idx == 0`); a
falsy (absent) markup is `none`. -/
def send_message_payloads (α : Type) (chat_id : Int) (text : List Char)
    (parse_mode : Option String) (reply_markup : Option α) : List (SendPayload α) :=
  (split_message text).enum.map fun p =>
    { chat_id := chat_id
      text := p.2
      parse_mode := parse_mode
      reply_markup := if reply_markup.isSome ∧ p.1 = 0 then reply_markup else none }

/-- A 9000-character text without newline splits into chunks of 4096, 4096
and 808 characters. -/
theorem splitLoop_length_9000 (l : List Char) (hlen : l.length = 9000)
    (hn : Char.ofNat 10 ∉ l) : (splitLoop l).length = 3 := by
  have h1 : splitLoop l = l.take 4096 :: splitLoop (l.drop 4096) :=
    splitLoop_step_no_newline l (by omega) hn
  have hn2 : Char.ofNat 10 ∉ l.drop 4096 := fun hm => hn (List.mem_of_mem_drop hm)
  have hlen2 : (l.drop 4096).length = 4904 := by simp [hlen]
  have h2 : splitLoop (l.drop 4096) =
      (l.drop 4096).take 4096 :: splitLoop ((l.drop 4096).drop 4096) :=
    splitLoop_step_no_newline _ (by omega) hn2
  have hlen3 : ((l.drop 4096).drop 4096).length = 808 := by simp [hlen]
  have h3 : splitLoop ((l.drop 4096).drop 4096) = [(l.drop 4096).drop 4096] :=
    splitLoop_last _ (by omega) (by
      intro he
      rw [he] at hlen3
      simp at hlen3)
  rw [h1, h2, h3]
  rfl

/-- C3: every chunk returned by the splitter has length at most 4096 and the
chunks concatenate back to the original text; a 9000-character text with no
newline is split into exactly 3 chunks; and when a reply markup is supplied,
`send_message` attaches it to the payload of chunk index 0 and to no other
chunk. -/
theorem C3_split_message_chunks :
    (∀ (t : List Char), ∀ ch ∈ split_message t, ch.length ≤ 4096) ∧
    (∀ t : List Char, (split_message t).flatten = t) ∧
    (∀ t : List Char, t.length = 9000 → Char.ofNat 10 ∉ t →
      (split_message t).length = 3) ∧
    (∀ (α : Type) (chat : Int) (t : List Char) (pm : Option String) (m : α)
      (i : Nat) (hi : i < (send_message_payloads α chat t pm (some m)).length),
      ((send_message_payloads α chat t pm (some m)).get ⟨i, hi⟩).reply_markup.isSome = true
        ↔ i = 0) := by
  refine ⟨?_, ?_, ?_, ?_⟩
  · intro t ch hch
    rw [split_message] at hch
    split at hch
    · next hle =>
      simp only [List.mem_singleton] at hch
      subst hch
      exact hle
    · exact splitLoop_length_le t ch hch
  · intro t
    rw [split_message]
    split
    · simp
    · exact splitLoop_join t
  · intro t hlen hn
    rw [split_message, if_neg (by omega)]
    exact splitLoop_length_9000 t hlen hn
  · intro α chat t pm m i hi
    simp only [send_message_payloads, List.get_eq_getElem, List.getElem_map,
      List.getElem_enum]
    by_cases hi0 : i = 0 <;> simp [hi0]

/-- Witness for C3 at concrete inputs: the 9000-character text `aaa…a` and a
two-character text with a markup attached. -/
theorem C3_split_message_chunks_witness :
    (split_message (List.replicate 9000 'a')).length = 3 ∧
    ((send_message_payloads Nat 1 ['h', 'i'] none (some 7)).get
        ⟨0, by simp [send_message_payloads, split_message]⟩).reply_markup.isSome = true := by
  constructor
  · exact C3_split_message_chunks.2.2.1 (List.replicate 9000 'a')
      (by rw [List.length_replicate])
      (by simp only [List.mem_replicate]; decide)
  · exact (C3_split_message_chunks.2.2.2 Nat 1 ['h', 'i'] none 7 0 _).2 rfl


/-! ## src/scheduler.py — trigger compilation and job loading -/

/-- Python `str.split(sep)` for a single-character separator, as used by
`schedule.time.split(":")` (src/scheduler.py line 105).  Mirrors Python:
splitting the empty string yields `[""]`. -/
def pySplitChar (sep : Char) (l : List Char) : List (List Char) :=
  match l with
  | [] => [[]]
  | x :: xs =>
    let r := pySplitChar sep xs
    if x = sep then [] :: r
    else
      match r with
      | [] => [[x]]
      | y :: ys => (x :: y) :: ys

/-- Python `int(s)` on a field of the `HH:MM` time column: the value of a
non-empty all-digit string, `none` otherwise (a parse failure raises
`ValueError` in the source, which the surrounding `try` of `_create_trigger`
turns into `None`). -/
def charsToNat? (l : List Char) : Option Nat :=
  if l = [] then none
  else
    l.foldl
      (fun acc c =>
        match acc with
        | none => none
        | some n => if c.isDigit then some (n * 10 + (c.toNat - 48)) else none)
      (some 0)

/-- `schedule_hour, schedule_minute = map(int, schedule.time.split(":"))`
(src/scheduler.py line 105); any unpacking or parse failure is caught by the
surrounding `try` and yields no trigger. -/
def parse_schedule_time (t : List Char) : Option (Nat × Nat) :=
  match (pySplitChar ':' t).map charsToNat? with
  | [some h, some m] => some (h, m)
  | _ => none

/-- `day_names` (src/scheduler.py line 119): APScheduler weekday names,
index 0 = Monday … 6 = Sunday. -/
def day_names : List String := ["mon", "tue", "wed", "thu", "fri", "sat", "sun"]

/-- An armed APScheduler `CronTrigger` as constructed by
`ScheduleExecutor._create_trigger`: `day_of_week` carries the weekday-name
list that the source joins with commas, `day` the day-of-month list. -/
structure CronTrigger where
  hour : Nat
  minute : Nat
  day_of_week : Option (List String)
  day : Option (List Int)
deriving DecidableEq

/-- A row of the `bot_schedules` table (src/database/models.py lines
144-169).  `schedule_value` is persisted as a JSON-array string; it is
modelled in parsed form: `none` for NULL or non-list JSON, `some l` for a
JSON integer list.  `time` is the `HH:MM` column. -/
structure BotSchedule where
  id : Nat
  bot_id : Nat
  schedule_type : String
  time : List Char
  enabled : Bool
  schedule_option : String
  schedule_value : Option (List Int)

/-- `ScheduleExecutor._create_trigger` (src/scheduler.py lines 101-145).
The final `if 23 < h ∨ 59 < m` guard models `CronTrigger`'s own field
validation (the library constructor raises on an out-of-range hour or
minute, which the surrounding `try` turns into `None`); every other branch
is a direct translation of the source. -/
def create_trigger (s : BotSchedule) : Option CronTrigger :=
  match parse_schedule_time s.time with
  | none => none
  | some (h, m) =>
    if 23 < h ∨ 59 < m then none
    else if s.schedule_option = "daily" then
      some { hour := h, minute := m, day_of_week := none, day := none }
    else if s.schedule_option = "weekdays" then
      match s.schedule_value with
      | some vs =>
        if vs ≠ [] then
          let days := (vs.filter fun d => decide (0 ≤ d ∧ d ≤ 6)).map
            fun d => day_names.getD d.toNat ""
          if days ≠ [] then
            some { hour := h, minute := m, day_of_week := some days, day := none }
          else none
        else none
      | none => none
    else if s.schedule_option = "monthly" then
      match s.schedule_value with
      | some vs =>
        if vs ≠ [] then
          let days := vs.filter fun d => decide (1 ≤ d ∧ d ≤ 31)
          if days ≠ [] then
            some { hour := h, minute := m, day_of_week := none, day := some days }
          else none
        else none
      | none => none
    else none

/-- A wall-clock instant, reduced to the fields a cron trigger inspects.
`weekday` uses APScheduler's numbering 0 = Monday … 6 = Sunday. -/
structure FireTime where
  weekday : Nat
  monthday : Nat
  hour : Nat
  minute : Nat

/-- Modelled from the spec: the firing semantics of APScheduler's
`CronTrigger` (the library itself is outside src/) — the trigger fires at an
instant iff every constrained field matches, and an omitted field matches
every value. -/
def CronTrigger.fires (tr : CronTrigger) (ft : FireTime) : Bool :=
  ft.hour == tr.hour && ft.minute == tr.minute &&
    (match tr.day_of_week with
     | none => true
     | some names => names.contains (day_names.getD ft.weekday "")) &&
    (match tr.day with
     | none => true
     | some ds => ds.contains (ft.monthday : Int))

/-- A job armed in the APScheduler instance by
`ScheduleExecutor._add_schedule_job` (src/scheduler.py lines 90-96):
its string id, its trigger, and the `args=[schedule.id]` binding. -/
structure ScheduledJob where
  job_id : String
  trigger : CronTrigger
  config_id : Nat
deriving DecidableEq

/-- `ScheduleExecutor._add_schedule_job` (src/scheduler.py lines 72-99),
acting on the scheduler's job list: any existing job with the same id is
removed, and if a trigger compiles the job is (re-)added
(`replace_existing=True`); when no trigger compiles the config is skipped. -/
def add_schedule_job (jobs : List ScheduledJob) (s : BotSchedule) : List ScheduledJob :=
  let jid := "schedule_" ++ toString s.id
  let pruned := jobs.filter fun j => j.job_id ≠ jid
  match create_trigger s with
  | none => pruned
  | some tr => pruned ++ [{ job_id := jid, trigger := tr, config_id := s.id }]

/-- `ScheduleExecutor._load_schedules` (src/scheduler.py lines 52-70),
starting from an empty scheduler (as after `start()` or the job-clearing
phase of `reload_schedules`): every enabled row is offered to
`_add_schedule_job` in order. -/
def load_schedules (schedules : List BotSchedule) : List ScheduledJob :=
  (schedules.filter fun s => s.enabled).foldl add_schedule_job []


/-- A `weekdays` schedule row with day subset `{0, 2, 4}` and time `09:00`. -/
def mwfSchedule : BotSchedule :=
  { id := 1
    bot_id := 1
    schedule_type := "send_partner_balance"
    time := ['0', '9', ':', '0', '0']
    enabled := true
    schedule_option := "weekdays"
    schedule_value := some [0, 2, 4] }

/-- The weekday-name lookup used by a Monday/Wednesday/Friday cron trigger
matches exactly the weekday numbers 0, 2 and 4. -/
theorem day_names_mwf_contains (w : Nat) :
    (["mon", "wed", "fri"] : List String).contains (day_names.getD w "") = true ↔
      (w = 0 ∨ w = 2 ∨ w = 4) := by
  match w with
  | 0 => decide
  | 1 => decide
  | 2 => decide
  | 3 => decide
  | 4 => decide
  | 5 => decide
  | 6 => decide
  | n + 7 =>
    rw [List.getD_eq_default _ _ (by simp [day_names])]
    simp

/-- C6: compiling the `weekdays` row with subset `{0, 2, 4}` and time
`09:00` yields a trigger that fires exactly on Monday, Wednesday and Friday
at 09:00; an empty or entirely out-of-range day subset for `weekdays` or
`monthly` yields no trigger; and a config with no trigger is skipped by the
load — the remaining configs still arm and nothing fails. -/
theorem C6_weekday_trigger :
    (∃ tr, create_trigger mwfSchedule = some tr ∧
      ∀ ft : FireTime, tr.fires ft = true ↔
        ((ft.weekday = 0 ∨ ft.weekday = 2 ∨ ft.weekday = 4) ∧
          ft.hour = 9 ∧ ft.minute = 0)) ∧
    create_trigger { mwfSchedule with schedule_value := some [] } = none ∧
    create_trigger { mwfSchedule with schedule_value := some [7, -1] } = none ∧
    create_trigger { mwfSchedule with
      schedule_option := "monthly"
      schedule_value := some [] } = none ∧
    create_trigger { mwfSchedule with
      schedule_option := "monthly"
      schedule_value := some [0, 32] } = none ∧
    load_schedules [mwfSchedule, { mwfSchedule with id := 2, schedule_value := some [] }] =
      load_schedules [mwfSchedule] := by
  refine ⟨⟨{ hour := 9, minute := 0, day_of_week := some ["mon", "wed", "fri"], day := none },
    by decide, ?_⟩, by decide, by decide, by decide, by decide, by decide⟩
  intro ft
  rcases ft with ⟨w, d, hh, mm⟩
  simp only [CronTrigger.fires, Bool.and_eq_true, beq_iff_eq, day_names_mwf_contains]
  tauto

/-- Witness for C6: the compiled Monday/Wednesday/Friday trigger fires on a
Monday 09:00 instant. -/
theorem C6_weekday_trigger_witness :
    CronTrigger.fires
      { hour := 9, minute := 0, day_of_week := some ["mon", "wed", "fri"], day := none }
      { weekday := 0, monthday := 6, hour := 9, minute := 0 } = true := by
  obtain ⟨tr, htr, hf⟩ := C6_weekday_trigger.1
  have he : ({ hour := 9, minute := 0, day_of_week := some ["mon", "wed", "fri"], day := none } : CronTrigger) = tr := by
    have hc : create_trigger mwfSchedule =
        some { hour := 9, minute := 0, day_of_week := some ["mon", "wed", "fri"], day := none } := by decide
    rw [hc] at htr
    exact Option.some.inj htr
  rw [he]
  exact (hf { weekday := 0, monthday := 6, hour := 9, minute := 0 }).mpr
    (by exact ⟨Or.inl rfl, rfl, rfl⟩)

/-- A `daily` schedule row with config id 5, concrete input for C8. -/
def dailySchedule5 : BotSchedule :=
  { id := 5
    bot_id := 1
    schedule_type := "send_partner_balance"
    time := ['0', '9', ':', '0', '0']
    enabled := true
    schedule_option := "daily"
    schedule_value := none }

/-- C8 counterexample: the job armed for the enabled config with id 5 has
job id `schedule_5` — an underscore separator — and not the claimed
`schedule:5`. -/
theorem C8_job_id_counterexample :
    (load_schedules [dailySchedule5]).map (fun j => j.job_id) = ["schedule_5"] ∧
    (∀ j ∈ load_schedules [dailySchedule5],
      j.job_id ≠ "schedule:" ++ toString (5 : Nat)) := by
  constructor
  · decide
  · decide

/-- The job id string derived from a schedule row by `_add_schedule_job`
(src/scheduler.py line 74): `f"schedule_{schedule.id}"`. -/
def job_id_of (s : BotSchedule) : String := "schedule_" ++ toString s.id

/-- The job record armed for a schedule row whose trigger compiles. -/
def job_of (s : BotSchedule) : Option ScheduledJob :=
  (create_trigger s).map fun tr =>
    { job_id := job_id_of s, trigger := tr, config_id := s.id }

/-- Characterisation of the job-loading fold: when the accumulator holds no
job id of the remaining configs and the configs carry pairwise distinct job
ids, the fold appends exactly the compiled jobs. -/
theorem foldl_add_schedule_job (cfgs : List BotSchedule) (acc : List ScheduledJob)
    (hacc : ∀ j ∈ acc, ∀ c ∈ cfgs, j.job_id ≠ job_id_of c)
    (hd : cfgs.Pairwise fun a b => job_id_of a ≠ job_id_of b) :
    cfgs.foldl add_schedule_job acc = acc ++ cfgs.filterMap job_of := by
  induction cfgs generalizing acc with
  | nil => simp
  | cons c rest ih =>
    have hfa : ∀ j ∈ acc, ¬ j.job_id = job_id_of c := fun j hj =>
      hacc j hj c (List.mem_cons_self c rest)
    have hfilter : (acc.filter fun j => j.job_id ≠ job_id_of c) = acc :=
      List.filter_eq_self.mpr fun j hj => by simpa using hfa j hj
    have hstep : add_schedule_job acc c = acc ++ (job_of c).toList := by
      rw [add_schedule_job]
      show (match create_trigger c with
        | none => acc.filter fun j => j.job_id ≠ job_id_of c
        | some tr => (acc.filter fun j => j.job_id ≠ job_id_of c) ++
            [{ job_id := job_id_of c, trigger := tr, config_id := c.id }]) =
        acc ++ (job_of c).toList
      rcases hct : create_trigger c with _ | tr
      · rw [hfilter]
        simp [job_of, hct]
      · rw [hfilter]
        simp [job_of, hct]
    have hjid : ∀ j ∈ (job_of c).toList, j.job_id = job_id_of c := by
      intro j hj
      rcases hct : create_trigger c with _ | tr
      · simp [job_of, hct] at hj
      · simp [job_of, hct] at hj
        rw [hj]
    have hacc2 : ∀ j ∈ acc ++ (job_of c).toList, ∀ c2 ∈ rest, j.job_id ≠ job_id_of c2 := by
      intro j hj c2 hc2
      rcases List.mem_append.1 hj with hja | hjc
      · exact hacc j hja c2 (List.mem_cons_of_mem c hc2)
      · rw [hjid j hjc]
        exact (List.pairwise_cons.1 hd).1 c2 hc2
    calc (c :: rest).foldl add_schedule_job acc
        = rest.foldl add_schedule_job (add_schedule_job acc c) := by
          simp [List.foldl_cons]
      _ = (acc ++ (job_of c).toList) ++ rest.filterMap job_of := by
          rw [hstep]
          exact ih _ hacc2 (List.pairwise_cons.1 hd).2
      _ = acc ++ (c :: rest).filterMap job_of := by
          rcases hct : create_trigger c with _ | tr
          · simp [job_of, hct, List.filterMap_cons]
          · simp [job_of, hct, List.filterMap_cons]

/-- Field characterisation of a compiled job. -/
theorem job_of_fields (s : BotSchedule) (j : ScheduledJob) (h : job_of s = some j) :
    j.job_id = job_id_of s ∧ j.config_id = s.id ∧ create_trigger s = some j.trigger := by
  rcases hct : create_trigger s with _ | tr
  · rw [job_of, hct] at h
    simp at h
  · rw [job_of, hct] at h
    simp only [Option.map_some'] at h
    have hj2 : j = { job_id := job_id_of s, trigger := tr, config_id := s.id } :=
      (Option.some.inj h).symm
    subst hj2
    exact ⟨rfl, rfl, hct ▸ rfl⟩

/-- C8 (amended): with pairwise-distinct job-id strings across the rows, the
loaded job set is exactly one job per enabled row whose trigger compiles;
each such job's id is the string `schedule_` followed by the config id (an
underscore separator, not the colon of the original claim), its
`args=[schedule.id]` binding recovers the config row, a disabled row
contributes no job, and distinct jobs carry distinct config ids. -/
theorem C8_jobs_one_to_one (cfgs : List BotSchedule)
    (hd : cfgs.Pairwise fun a b => job_id_of a ≠ job_id_of b) :
    load_schedules cfgs = (cfgs.filter fun s => s.enabled).filterMap job_of ∧
    (∀ c ∈ cfgs, c.enabled = true → ∀ tr, create_trigger c = some tr →
      ({ job_id := "schedule_" ++ toString c.id, trigger := tr, config_id := c.id } :
        ScheduledJob) ∈ load_schedules cfgs) ∧
    (∀ j ∈ load_schedules cfgs, ∃ c ∈ cfgs, c.enabled = true ∧
      create_trigger c = some j.trigger ∧ j.config_id = c.id ∧
      j.job_id = "schedule_" ++ toString c.id) ∧
    (∀ c ∈ cfgs, c.enabled = false → ∀ j ∈ load_schedules cfgs, j.config_id ≠ c.id) ∧
    (load_schedules cfgs).Pairwise fun a b => a.config_id ≠ b.config_id := by
  have hsym : Symmetric fun a b : BotSchedule => job_id_of a ≠ job_id_of b :=
    fun a b h he => h he.symm
  have hmain : load_schedules cfgs = (cfgs.filter fun s => s.enabled).filterMap job_of := by
    rw [load_schedules]
    have := foldl_add_schedule_job (cfgs.filter fun s => s.enabled) []
      (by simp) (hd.filter _)
    simpa using this
  have honto : ∀ j ∈ load_schedules cfgs, ∃ c ∈ cfgs, c.enabled = true ∧
      create_trigger c = some j.trigger ∧ j.config_id = c.id ∧
      j.job_id = "schedule_" ++ toString c.id := by
    intro j hj
    rw [hmain] at hj
    obtain ⟨c, hcf, hco⟩ := List.mem_filterMap.1 hj
    obtain ⟨hcm, hce⟩ := List.mem_filter.1 hcf
    obtain ⟨hjid, hcid, hctr⟩ := job_of_fields c j (Option.mem_def.1 hco)
    exact ⟨c, hcm, by simpa using hce, hctr, hcid, hjid⟩
  refine ⟨hmain, ?_, honto, ?_, ?_⟩
  · intro c hcm hce tr hct
    rw [hmain]
    refine List.mem_filterMap.2 ⟨c, List.mem_filter.2 ⟨hcm, by simpa using hce⟩, ?_⟩
    rw [job_of, hct]
    rfl
  · intro c hcm hce j hj heq
    obtain ⟨c2, hc2m, hc2e, _, hid, _⟩ := honto j hj
    have hne : c2 ≠ c := fun he => by
      rw [he, hce] at hc2e
      exact Bool.noConfusion hc2e
    have hjob : job_id_of c2 ≠ job_id_of c := hd.forall hsym hc2m hcm hne
    have hcc : c2.id = c.id := by rw [← hid, heq]
    exact hjob (by rw [job_id_of, job_id_of, hcc])
  · rw [hmain]
    refine List.Pairwise.filterMap job_of ?_ (hd.filter _)
    intro a a2 hne b hb b2 hb2 heq
    apply hne
    obtain ⟨_, hba, _⟩ := job_of_fields a b (Option.mem_def.1 hb)
    obtain ⟨_, hba2, _⟩ := job_of_fields a2 b2 (Option.mem_def.1 hb2)
    have hida : a.id = a2.id := by rw [← hba, ← hba2, heq]
    rw [job_id_of, job_id_of, hida]

/-- Witness for C8 (amended): loading an enabled `daily` row with id 5 next
to a disabled row with id 6 arms exactly the job `schedule_5`. -/
theorem C8_jobs_one_to_one_witness :
    ({ job_id := "schedule_" ++ toString (5 : Nat)
       trigger := { hour := 9, minute := 0, day_of_week := none, day := none }
       config_id := 5 } : ScheduledJob) ∈
      load_schedules [dailySchedule5, { dailySchedule5 with id := 6, enabled := false }] := by
  have h := C8_jobs_one_to_one
    [dailySchedule5, { dailySchedule5 with id := 6, enabled := false }] (by decide)
  exact h.2.1 dailySchedule5 (List.mem_cons_self _ _) (by decide)
    { hour := 9, minute := 0, day_of_week := none, day := none } (by decide)

/-! ## src/scheduler.py — balance aggregation of `_send_partner_balance` -/

/-- The nested `firm` / `currency` object of a `PartnerBalance/Get` entry;
only its `id` is read (`firm.get("id")`). -/
structure IdRef where
  id : Option Int
deriving DecidableEq

/-- One `PartnerBalance/Get` result entry as read by
`_send_partner_balance` (src/scheduler.py lines 396-434).  The numeric
fields are converted with `float(entry.get(..., 0))` in the source and a
missing field defaults to 0, so they are modelled as total integer fields
(exact arithmetic; the claim's values are integral). -/
structure BalanceEntry where
  firm : Option IdRef
  currency : Option IdRef
  start_amount : Int
  debit : Int
  credit : Int
  date : Int
deriving DecidableEq

/-- The `(firm_id, currency_id)` grouping key of an entry (src/scheduler.py
lines 399-406): present only when both sub-objects are dictionaries and
both ids are truthy (`if firm_id and currency_id` — non-`None` and
non-zero). -/
def balance_entry_key (e : BalanceEntry) : Option (Int × Int) :=
  let fid := match e.firm with | some f => f.id | none => none
  let cid := match e.currency with | some c => c.id | none => none
  match fid, cid with
  | some fi, some ci => if fi ≠ 0 ∧ ci ≠ 0 then some (fi, ci) else none
  | _, _ => none

/-- The insertion-ordered `balance_groups` dictionary
(src/scheduler.py lines 386, 405-409): entries are appended to the bucket of
their key, keyless entries contribute to no bucket. -/
def balance_groups (entries : List BalanceEntry) : List ((Int × Int) × List BalanceEntry) :=
  entries.foldl
    (fun gs e =>
      match balance_entry_key e with
      | none => gs
      | some k =>
        if gs.any (fun g => g.1 = k) then
          gs.map fun g => if g.1 = k then (g.1, g.2 ++ [e]) else g
        else gs ++ [(k, [e])])
    []

/-- `sorted(entries, key=lambda x: x.get("date", 0))` (src/scheduler.py line
428): Python's `sorted` is a stable merge sort, modelled by the stable
`List.mergeSort`. -/
def sorted_by_date (l : List BalanceEntry) : List BalanceEntry :=
  l.mergeSort fun a b => decide (a.date ≤ b.date)

/-- The trailing balance of one `(firm, currency)` bucket
(src/scheduler.py lines 427-434): `start_amount + debit - credit` of the
last entry after the date sort. -/
def group_final_balance (l : List BalanceEntry) : Option Int :=
  match (sorted_by_date l).getLast? with
  | none => none
  | some e => some (e.start_amount + e.debit - e.credit)

/-- `has_negative_balance` (src/scheduler.py lines 416, 423-437): some
bucket's trailing balance is strictly negative. -/
def has_negative_balance (entries : List BalanceEntry) : Bool :=
  (balance_groups entries).any fun g =>
    match group_final_balance g.2 with
    | some b => decide (b < 0)
    | none => false

/-- Whether `_send_partner_balance` sends the alert for a partner
(src/scheduler.py lines 411-413 and 454-457): nothing is sent when no
balance entries came back, and otherwise exactly when some combination's
trailing balance is negative. -/
def sends_balance_alert (entries : List BalanceEntry) : Bool :=
  if entries.isEmpty then false else has_negative_balance entries

/-- The date comparison handed to the sort is transitive and total. -/
theorem balance_le_trans_total :
    (∀ a b c : BalanceEntry, (decide (a.date ≤ b.date)) = true →
      (decide (b.date ≤ c.date)) = true → (decide (a.date ≤ c.date)) = true) ∧
    (∀ a b : BalanceEntry, (decide (a.date ≤ b.date) || decide (b.date ≤ a.date)) = true) := by
  constructor
  · intro a b c hab hbc
    simp only [decide_eq_true_eq] at *
    omega
  · intro a b
    simp only [Bool.or_eq_true, decide_eq_true_eq]
    omega

/-- The bucket balance is computed from the entry with the strictly
greatest date alone. -/
theorem group_final_balance_max_date (l : List BalanceEntry) (m : BalanceEntry)
    (hm : m ∈ l) (hmax : ∀ e ∈ l, e ≠ m → e.date < m.date) :
    group_final_balance l = some (m.start_amount + m.debit - m.credit) := by
  have hperm : (sorted_by_date l).Perm l := List.mergeSort_perm l _
  have hsorted : (sorted_by_date l).Pairwise fun a b => decide (a.date ≤ b.date) = true := by
    have h := List.sorted_mergeSort
      (fun a b c => balance_le_trans_total.1 a b c)
      (fun a b => balance_le_trans_total.2 a b) l
    exact h
  have hms : m ∈ sorted_by_date l := hperm.mem_iff.2 hm
  rcases hx : (sorted_by_date l).getLast? with _ | x
  · rw [List.getLast?_eq_none_iff] at hx
    rw [hx] at hms
    simp at hms
  · have hxs : x ∈ sorted_by_date l := List.mem_of_getLast?_eq_some hx
    have hxl : x ∈ l := hperm.mem_iff.1 hxs
    have hxm : x = m := by
      by_contra hne
      have hlt : x.date < m.date := hmax x hxl hne
      have hdrop : (sorted_by_date l).dropLast ++ [x] = sorted_by_date l :=
        List.dropLast_append_getLast? x (Option.mem_def.2 hx)
      rw [← hdrop] at hsorted hms
      rcases List.mem_append.1 hms with hmd | hmx
      · have := (List.pairwise_append.1 hsorted).2.2 m hmd x (List.mem_singleton_self x)
        simp only [decide_eq_true_eq] at this
        omega
      · simp only [List.mem_singleton] at hmx
        exact hne (hmx ▸ rfl)
    rw [group_final_balance, hx, hxm]

/-- The spec's worked example, first entry:
`{start:100, debit:0, credit:150, date:1}` for book 1 / currency 1. -/
def balanceExampleA : BalanceEntry :=
  { firm := some { id := some 1 }
    currency := some { id := some 1 }
    start_amount := 100
    debit := 0
    credit := 150
    date := 1 }

/-- The spec's worked example, second entry:
`{start:-50, debit:20, credit:0, date:2}` for book 1 / currency 1. -/
def balanceExampleB : BalanceEntry :=
  { firm := some { id := some 1 }
    currency := some { id := some 1 }
    start_amount := -50
    debit := 20
    credit := 0
    date := 2 }

/-- C2: for a bucket with a strictly latest entry the trailing balance is
`start_amount + debit - credit` of that entry alone (not a sum over the
bucket); the alert is sent exactly when some `(book, currency)` bucket's
trailing balance is strictly negative; and on the worked example the
balance is `-50 + 20 - 0 = -30` and the alert fires. -/
theorem C2_balance_alert :
    (∀ (l : List BalanceEntry) (m : BalanceEntry), m ∈ l →
        (∀ e ∈ l, e ≠ m → e.date < m.date) →
        group_final_balance l = some (m.start_amount + m.debit - m.credit)) ∧
    (∀ entries : List BalanceEntry, sends_balance_alert entries = true ↔
        ∃ g ∈ balance_groups entries, ∃ b, group_final_balance g.2 = some b ∧ b < 0) ∧
    group_final_balance [balanceExampleA, balanceExampleB] = some (-30) ∧
    sends_balance_alert [balanceExampleA, balanceExampleB] = true := by
  have hs : sorted_by_date [balanceExampleA, balanceExampleB] =
      [balanceExampleA, balanceExampleB] :=
    List.mergeSort_of_sorted (by decide)
  have h3 : group_final_balance [balanceExampleA, balanceExampleB] = some (-30) := by
    rw [group_final_balance, hs]
    rfl
  refine ⟨group_final_balance_max_date, ?_, h3, ?_⟩
  · intro entries
    rw [sends_balance_alert]
    split
    · next hemp =>
      constructor
      · intro h
        exact absurd h (by simp)
      · rintro ⟨g, hg, _⟩
        have he : entries = [] := List.isEmpty_iff.1 hemp
        rw [he] at hg
        simp [balance_groups] at hg
    · rw [has_negative_balance, List.any_eq_true]
      constructor
      · rintro ⟨g, hg, hp⟩
        refine ⟨g, hg, ?_⟩
        rcases hb : group_final_balance g.2 with _ | b
        · rw [hb] at hp
          simp at hp
        · rw [hb] at hp
          simp only [decide_eq_true_eq] at hp
          exact ⟨b, rfl, hp⟩
      · rintro ⟨g, hg, b, hb, hneg⟩
        refine ⟨g, hg, ?_⟩
        rw [hb]
        simpa using hneg
  · rw [sends_balance_alert]
    rw [if_neg (by decide)]
    have hgb : balance_groups [balanceExampleA, balanceExampleB] =
        [((1, 1), [balanceExampleA, balanceExampleB])] := rfl
    rw [has_negative_balance, hgb]
    simp [h3]

/-- Witness for C2: the worked example's bucket has `date:2` strictly
latest, and the general bucket rule applied there gives `-50 + 20 - 0`. -/
theorem C2_balance_alert_witness :
    group_final_balance [balanceExampleA, balanceExampleB] =
      some (balanceExampleB.start_amount + balanceExampleB.debit - balanceExampleB.credit) := by
  have h := C2_balance_alert.1 [balanceExampleA, balanceExampleB] balanceExampleB
    (by decide) (by decide)
  exact h

/-! ## src/bot_manager.py — the bot registry (`register_bot`) -/

/-- The Telegram `getMe` response as read by `register_bot`: only
`username` is consulted (`bot_info.get("username", "Unknown")`). -/
structure BotInfo where
  username : Option String
deriving DecidableEq

/-- The per-bot record stored in `BotManager.bots`
(src/bot_manager.py lines 70-76). -/
structure BotData where
  token : String
  bot_name : String
  bot_info : BotInfo
  bot_id : Option Nat
  registered_at : Nat
deriving DecidableEq

/-- A pending self-registration record stored in
`BotManager.pending_registrations` (src/bot_manager.py lines 642-649). -/
structure RegistrationData where
  phone : Option String
  first_name : String
  last_name : String
  chat_id : Int
  bot_id : Option Nat
deriving DecidableEq

/-- The mutable state of the `BotManager` singleton
(src/bot_manager.py lines 25-33). -/
structure BotManagerState where
  bots : List (String × BotData)
  webhook_url_base : Option String
  pending_registrations : List (Int × RegistrationData)

/-- Python string truthiness of an `Optional[str]`. -/
def strTruthy : Option String → Bool
  | some s => s ≠ ""
  | none => false

/-- Python `a or b` on an `Optional[str]` and a `str`. -/
def pyStrOr (a : Option String) (b : String) : String :=
  match a with
  | some s => if s = "" then b else s
  | none => b

/-- Python `a or b` on two `Optional[str]` values. -/
def pyOptStrOr (a b : Option String) : Option String :=
  if strTruthy a then a else b

/-- Python `s.rstrip('/')`. -/
def pyRstripSlash (s : String) : String := s.dropRightWhile fun c => c = '/'

/-- The webhook URL derived from the stable 10-character credential prefix
(src/bot_manager.py lines 45-46 and 84-85):
`f"{base}/webhook/{token[:10]}"`. -/
def webhook_url (base : String) (token : String) : String :=
  base ++ "/webhook/" ++ token.take 10

/-- Outward Telegram-platform calls issued by the registry
(src/core/telegram_webhook.py collaborators). -/
inductive TgEffect
  | getBotInfo (token : String)
  | setWebhook (token : String) (url : String)
  | checkWebhookInfo (token : String)
  | setChatMenuButton (token : String) (url : String)
  | deleteWebhook (token : String)
deriving DecidableEq

/-- The registry's collaborators: the Telegram API (`get_bot_info`,
`set_webhook` success), the `TELEGRAM_WEB_BASE_URL` config value,
`urllib.parse.quote` as an uninterpreted pure function, and the clock. -/
structure TgEnv where
  get_bot_info : String → Option BotInfo
  set_webhook_ok : String → String → Bool
  telegram_web_base_url : Option String
  url_quote : String → String
  now : Nat

/-- The mini-app menu-button URL (src/bot_manager.py lines 55-60 and
96-101): `f"{base}/mini-app/{quote(bot_name or 'default')}/"` after
`rstrip('/')`. -/
def menu_button_url (env : TgEnv) (web : String) (final_name : String) : String :=
  pyRstripSlash web ++ "/mini-app/" ++
    env.url_quote (pyStrOr (some final_name) "default") ++ "/"

/-- The `set_webhook` / `check_webhook_info` pair (src/bot_manager.py lines
47-48 and 86-87): the info check runs only when the webhook set succeeded. -/
def webhook_bind_effects (env : TgEnv) (base : String) (token : String) : List TgEffect :=
  TgEffect.setWebhook token (webhook_url base token) ::
    (if env.set_webhook_ok token (webhook_url base token) then
      [TgEffect.checkWebhookInfo token]
    else [])

/-- `BotManager.register_bot` (src/bot_manager.py lines 39-106), returning
the Python result (`bot_data` or the raised `ValueError`), the state after
the call, and the trace of Telegram-platform calls.

* Credential already present (lines 41-62): return the stored record; when a
  webhook base URL is configured re-set the webhook to the prefix-derived
  URL and re-publish the menu button; no `get_bot_info` validation.
* Otherwise (lines 64-106): one `get_bot_info` call; a falsy reply raises
  `ValueError` with nothing stored; on success the record is stored first,
  then the webhook is bound (if a base URL is configured) and the menu
  button published (if a web base URL is configured). -/
def register_bot (st : BotManagerState) (env : TgEnv) (token : String)
    (bot_name : Option String) (bot_id : Option Nat) :
    Except String BotData × BotManagerState × List TgEffect :=
  match st.bots.lookup token with
  | some existing =>
    let effs :=
      if strTruthy st.webhook_url_base then
        let base := st.webhook_url_base.getD ""
        let web := pyOptStrOr env.telegram_web_base_url st.webhook_url_base
        webhook_bind_effects env base token ++
          (if strTruthy web then
            [TgEffect.setChatMenuButton token
              (menu_button_url env (web.getD "") (pyStrOr bot_name existing.bot_name))]
          else [])
      else []
    (Except.ok existing, st, effs)
  | none =>
    match env.get_bot_info token with
    | none =>
      (Except.error ("Invalid bot token: " ++ token.take 10), st,
        [TgEffect.getBotInfo token])
    | some info =>
      let bd : BotData :=
        { token := token
          bot_name := pyStrOr bot_name (info.username.getD "Unknown")
          bot_info := info
          bot_id := bot_id
          registered_at := env.now }
      let st1 : BotManagerState := { st with bots := st.bots ++ [(token, bd)] }
      let effW :=
        if strTruthy st.webhook_url_base then
          webhook_bind_effects env (st.webhook_url_base.getD "") token
        else []
      let web := pyOptStrOr env.telegram_web_base_url st.webhook_url_base
      let effM :=
        if strTruthy web then
          [TgEffect.setChatMenuButton token (menu_button_url env (web.getD "") bd.bot_name)]
        else []
      (Except.ok bd, st1, TgEffect.getBotInfo token :: (effW ++ effM))

/-- C4: re-registering a credential already present in the registry returns
exactly the stored record, leaves the registry state unchanged, performs no
`get_bot_info` validation call, and every webhook binding it performs uses
the same URL derived from the credential's stable 10-character prefix as at
first registration (and is performed whenever a base URL is configured). -/
theorem C4_reregister_idempotent (st : BotManagerState) (env : TgEnv)
    (token : String) (bot_name : Option String) (bot_id : Option Nat)
    (existing : BotData) (hex : st.bots.lookup token = some existing) :
    (register_bot st env token bot_name bot_id).1 = Except.ok existing ∧
    (register_bot st env token bot_name bot_id).2.1 = st ∧
    (∀ t, TgEffect.getBotInfo t ∉ (register_bot st env token bot_name bot_id).2.2) ∧
    (∀ t u, TgEffect.setWebhook t u ∈ (register_bot st env token bot_name bot_id).2.2 →
      t = token ∧ u = webhook_url (st.webhook_url_base.getD "") token) ∧
    (strTruthy st.webhook_url_base = true →
      TgEffect.setWebhook token (webhook_url (st.webhook_url_base.getD "") token) ∈
        (register_bot st env token bot_name bot_id).2.2) := by
  refine ⟨by simp [register_bot, hex], by simp [register_bot, hex], ?_, ?_, ?_⟩
  · intro t
    simp only [register_bot, hex]
    cases hb : strTruthy st.webhook_url_base <;>
      simp [hb, webhook_bind_effects]
  · intro t u
    simp only [register_bot, hex]
    intro hm
    cases hb : strTruthy st.webhook_url_base
    · rw [hb] at hm
      simp at hm
    · rw [hb] at hm
      simp only [if_true, webhook_bind_effects] at hm
      rcases List.mem_append.1 hm with h1 | h2
      · rcases List.mem_cons.1 h1 with he | hrest
        · exact TgEffect.setWebhook.inj he
        · split at hrest <;> simp at hrest
      · split at h2 <;> simp at h2
  · intro hb
    simp only [register_bot, hex]
    simp [hb, webhook_bind_effects]

/-- C5: registering an unknown credential whose platform validation returns
no bot info fails with the `ValueError`, stores nothing (a later lookup of
the credential still fails), and the only outward call made is the single
`get_bot_info` introspection — no webhook is bound, no menu button is set. -/
theorem C5_invalid_credential (st : BotManagerState) (env : TgEnv)
    (token : String) (bot_name : Option String) (bot_id : Option Nat)
    (hnew : st.bots.lookup token = none) (hbad : env.get_bot_info token = none) :
    (register_bot st env token bot_name bot_id).1 =
      Except.error ("Invalid bot token: " ++ token.take 10) ∧
    (register_bot st env token bot_name bot_id).2.1 = st ∧
    (register_bot st env token bot_name bot_id).2.1.bots.lookup token = none ∧
    (register_bot st env token bot_name bot_id).2.2 = [TgEffect.getBotInfo token] := by
  simp [register_bot, hnew, hbad]

/-- A concrete registry state holding one bot, for the C4 witness. -/
def regWitnessBot : BotData :=
  { token := "tokentoken123"
    bot_name := "demo"
    bot_info := { username := some "demo" }
    bot_id := some 1
    registered_at := 0 }

/-- A concrete registry state with `regWitnessBot` registered and a webhook
base URL configured. -/
def regWitnessState : BotManagerState :=
  { bots := [("tokentoken123", regWitnessBot)]
    webhook_url_base := some "https://example.org"
    pending_registrations := [] }

/-- A concrete environment: validation fails for every credential, webhook
sets succeed, no web base URL, quoting is the identity. -/
def regWitnessEnv : TgEnv :=
  { get_bot_info := fun _ => none
    set_webhook_ok := fun _ _ => true
    telegram_web_base_url := none
    url_quote := fun s => s
    now := 7 }

/-- Witness for C4 at the concrete state: re-registering the stored
credential returns the stored record and re-binds the prefix-derived URL. -/
theorem C4_reregister_idempotent_witness :
    (register_bot regWitnessState regWitnessEnv "tokentoken123" none none).1 =
      Except.ok regWitnessBot ∧
    TgEffect.setWebhook "tokentoken123"
        (webhook_url ((regWitnessState.webhook_url_base).getD "") "tokentoken123") ∈
      (register_bot regWitnessState regWitnessEnv "tokentoken123" none none).2.2 := by
  have h := C4_reregister_idempotent regWitnessState regWitnessEnv "tokentoken123"
    none none regWitnessBot (by decide)
  exact ⟨h.1, h.2.2.2.2 (by decide)⟩

/-- A concrete empty registry state for the C5 witness. -/
def emptyRegState : BotManagerState :=
  { bots := []
    webhook_url_base := some "https://example.org"
    pending_registrations := [] }

/-- Witness for C5 at a concrete empty registry: the invalid credential is
rejected with no registration and only the introspection call. -/
theorem C5_invalid_credential_witness :
    (register_bot emptyRegState regWitnessEnv "badtoken99999" none none).2.2 =
      [TgEffect.getBotInfo "badtoken99999"] := by
  have h := C5_invalid_credential emptyRegState regWitnessEnv "badtoken99999" none none
    (by decide) rfl
  exact h.2.2.2

/-! ## src/bot_manager.py — conversation dispatcher -/

/-- The user-visible replies of the dispatcher, abstracted to tags (the
Russian message texts of src/bot_manager.py are fixed constants). -/
inductive ReplyTag
  | shareOwnContact
  | integrationNotConfigured
  | searchingAccount
  | registerConfirm
  | accountNotFound
  | alreadyRegistered (partnerId : Option Int)
  | linkSuccess (partnerId : Option Int)
  | linkFailed
  | useStart
  | cancelledOk
  | dataNotFound
  | registering
  | registrationSuccess (newPartnerId : Option Int)
  | registrationFailed
deriving DecidableEq

/-- The short notes passed to `answer_callback_query`. -/
inductive CallbackNote
  | cancelled
  | empty
  | integrationError
  | dataNotFoundNote
  | registeringNote
deriving DecidableEq

/-- The custom `oked` identity property on a REGOS partner record: the API
may return it as a string or as a number. -/
inductive OkedVal
  | str (s : String)
  | num (n : Int)
deriving DecidableEq

/-- Python truthiness of an `oked` value. -/
def okedTruthy : OkedVal → Bool
  | .str s => s ≠ ""
  | .num n => n ≠ 0

/-- Python `str(...)` of an `oked` value. -/
def okedStr : OkedVal → String
  | .str s => s
  | .num n => toString n

/-- A REGOS partner record as read by `handle_contact_shared`
(src/bot_manager.py lines 687-690). -/
structure Partner where
  id : Option Int
  oked : Option OkedVal
deriving DecidableEq

/-- The `bot_settings` row fields the dispatcher reads
(src/database/models.py; `can_register`, `partner_group_id`). -/
structure BotSettings where
  can_register : Bool
  partner_group_id : Int
deriving DecidableEq

/-- Outward calls of the conversation dispatcher. -/
inductive BotEffect
  | sendReply (chatId : Int) (tag : ReplyTag)
  | answerCallback (callbackQueryId : String) (note : CallbackNote)
  | fetchBotSettings (botId : Nat)
  | searchPartnerByPhone (phone : Option String)
  | updatePartnerTelegramId (partnerId : Option Int) (chatId : Int)
  | registerPartner (groupId : Int) (phone : Option String) (chatId : Int)
deriving DecidableEq

/-- The dispatcher's collaborators: the settings repository, the REGOS
partner search / update / registration calls. -/
structure DispatchEnv where
  bot_settings : Nat → Option BotSettings
  search_partner : Option String → Option Partner
  update_partner_ok : Option Int → Int → Bool
  register_result : Option (Bool × Option Int)

/-- Python truthiness of an `Optional[int]` (0 is falsy). -/
def natOptTruthy : Option Nat → Bool
  | some n => n ≠ 0
  | none => false

/-- `self.pending_registrations[chat_id] = data`: dictionary assignment
preserving insertion order on overwrite. -/
def pendingInsert (m : List (Int × RegistrationData)) (k : Int) (v : RegistrationData) :
    List (Int × RegistrationData) :=
  if m.any fun p => p.1 = k then m.map fun p => if p.1 = k then (k, v) else p
  else m ++ [(k, v)]

/-- `del self.pending_registrations[chat_id]` (a no-op if absent, matching
the guarded deletes in the source). -/
def pendingErase (m : List (Int × RegistrationData)) (k : Int) :
    List (Int × RegistrationData) :=
  m.filter fun p => p.1 ≠ k

/-- `if callback_query_id: await self.answer_callback_query(...)`. -/
def answer_effects (cq : Option String) (note : CallbackNote) : List BotEffect :=
  if strTruthy cq then [BotEffect.answerCallback (cq.getD "") note] else []

/-- The settings fetch of `handle_contact_shared` (src/bot_manager.py lines
607-627): performed only for a truthy `bot_id`; missing settings leave the
defaults `can_register = False`, `partner_group_id = 1`. -/
def contact_settings (env : DispatchEnv) (bot_id : Option Nat) :
    List BotEffect × Bool × Int :=
  if natOptTruthy bot_id then
    match env.bot_settings (bot_id.getD 0) with
    | some s => ([BotEffect.fetchBotSettings (bot_id.getD 0)], s.can_register, s.partner_group_id)
    | none => ([BotEffect.fetchBotSettings (bot_id.getD 0)], false, 1)
  else ([], false, 1)

/-- `BotManager.handle_contact_shared` (src/bot_manager.py lines 585-740):
search the partner by phone; link / report already-linked when found;
otherwise offer self-registration (storing a `PendingRegistration`) when the
settings allow it, or report not-found. -/
def handle_contact_shared (st : BotManagerState) (env : DispatchEnv)
    (chat_id : Int) (phone_number : Option String) (regos_token : Option String)
    (bot_id : Option Nat) (ufirst : String) (ulast : String) :
    BotManagerState × List BotEffect :=
  if ¬ strTruthy regos_token then
    (st, [BotEffect.sendReply chat_id ReplyTag.integrationNotConfigured])
  else
    let s := contact_settings env bot_id
    let effs := s.1 ++ [BotEffect.sendReply chat_id ReplyTag.searchingAccount,
      BotEffect.searchPartnerByPhone phone_number]
    match env.search_partner phone_number with
    | none =>
      if s.2.1 then
        let rd : RegistrationData :=
          { phone := phone_number
            first_name := ufirst
            last_name := ulast
            chat_id := chat_id
            bot_id := bot_id }
        ({ st with pending_registrations := pendingInsert st.pending_registrations chat_id rd },
          effs ++ [BotEffect.sendReply chat_id ReplyTag.registerConfirm])
      else
        (st, effs ++ [BotEffect.sendReply chat_id ReplyTag.accountNotFound])
    | some partner =>
      if (match partner.oked with
          | some o => okedTruthy o && (okedStr o == toString chat_id)
          | none => false) then
        (st, effs ++ [BotEffect.sendReply chat_id (ReplyTag.alreadyRegistered partner.id)])
      else
        let effs2 := effs ++ [BotEffect.updatePartnerTelegramId partner.id chat_id]
        if env.update_partner_ok partner.id chat_id then
          (st, effs2 ++ [BotEffect.sendReply chat_id (ReplyTag.linkSuccess partner.id)])
        else
          (st, effs2 ++ [BotEffect.sendReply chat_id ReplyTag.linkFailed])

/-- The contact branch of `BotManager.process_update` (src/bot_manager.py
lines 187-220): a contact whose `user_id` is present and differs from the
sender is rejected with a corrective prompt; otherwise (own contact, or a
contact without a Telegram account) the share is processed. -/
def process_update_contact (st : BotManagerState) (env : DispatchEnv)
    (chat_id : Int) (contact_user_id : Option Int) (phone_number : Option String)
    (message_from_id : Option Int) (regos_token : Option String) (bot_id : Option Nat)
    (ufirst : String) (ulast : String) :
    BotManagerState × List BotEffect :=
  if contact_user_id = none ∨ contact_user_id = message_from_id then
    handle_contact_shared st env chat_id phone_number regos_token bot_id ufirst ulast
  else
    (st, [BotEffect.sendReply chat_id ReplyTag.shareOwnContact])

/-- The `"register_no_"` callback-data tag as a character list. -/
def registerNoTag : List Char :=
  ['r', 'e', 'g', 'i', 's', 't', 'e', 'r', '_', 'n', 'o', '_']

/-- The `"register_yes_"` callback-data tag as a character list. -/
def registerYesTag : List Char :=
  ['r', 'e', 'g', 'i', 's', 't', 'e', 'r', '_', 'y', 'e', 's', '_']

/-- `BotManager.handle_registration_callback` (src/bot_manager.py lines
398-514): `register_no_` deletes the pending entry; `register_yes_` with a
configured integration token reads and then deletes the pending entry
**before** issuing the `register_partner` call; a `register_yes_` with no
pending entry answers with the safe "data not found, restart" reply. -/
def handle_registration_callback (st : BotManagerState) (env : DispatchEnv)
    (callback_data : List Char) (chat_id : Int) (regos_token : Option String)
    (bot_id : Option Nat) (callback_query_id : Option String) :
    BotManagerState × List BotEffect :=
  if registerNoTag.isPrefixOf callback_data then
    ({ st with pending_registrations := pendingErase st.pending_registrations chat_id },
      answer_effects callback_query_id CallbackNote.cancelled ++
        [BotEffect.sendReply chat_id ReplyTag.cancelledOk])
  else if ¬ registerYesTag.isPrefixOf callback_data then
    (st, answer_effects callback_query_id CallbackNote.empty)
  else if ¬ strTruthy regos_token then
    (st, answer_effects callback_query_id CallbackNote.integrationError ++
      [BotEffect.sendReply chat_id ReplyTag.integrationNotConfigured])
  else
    match st.pending_registrations.lookup chat_id with
    | none =>
      (st, answer_effects callback_query_id CallbackNote.dataNotFoundNote ++
        [BotEffect.sendReply chat_id ReplyTag.dataNotFound])
    | some rd =>
      let bid2 := if natOptTruthy rd.bot_id then rd.bot_id else bot_id
      let st1 : BotManagerState :=
        { st with pending_registrations := pendingErase st.pending_registrations chat_id }
      let g :=
        if natOptTruthy bid2 then
          match env.bot_settings (bid2.getD 0) with
          | some s => ([BotEffect.fetchBotSettings (bid2.getD 0)], s.partner_group_id)
          | none => ([BotEffect.fetchBotSettings (bid2.getD 0)], 1)
        else ([], 1)
      let effs := g.1 ++ answer_effects callback_query_id CallbackNote.registeringNote ++
        [BotEffect.sendReply chat_id ReplyTag.registering,
          BotEffect.registerPartner g.2 rd.phone chat_id]
      match env.register_result with
      | some r =>
        if r.1 then
          (st1, effs ++ [BotEffect.sendReply chat_id (ReplyTag.registrationSuccess r.2)])
        else
          (st1, effs ++ [BotEffect.sendReply chat_id ReplyTag.registrationFailed])
      | none => (st1, effs ++ [BotEffect.sendReply chat_id ReplyTag.registrationFailed])

/-- Looking up a key just erased from the pending store fails. -/
theorem lookup_pendingErase (m : List (Int × RegistrationData)) (k : Int) :
    (pendingErase m k).lookup k = none := by
  induction m with
  | nil => rfl
  | cons p rest ih =>
    rw [pendingErase] at ih ⊢
    rw [List.filter_cons]
    by_cases hp : p.1 = k
    · rw [if_neg (by simp [hp])]
      exact ih
    · rw [if_pos (by simp [hp])]
      have hbe : (k == p.1) = false := by
        simp only [beq_eq_false_iff_ne, ne_eq]
        exact fun he => hp he.symm
      simp only [List.lookup, hbe]
      exact ih

/-- A concrete dispatcher environment for the C7/C9 witnesses: settings
allow self-registration, the phone search finds nobody, registration
succeeds. -/
def dispatchWitnessEnv : DispatchEnv :=
  { bot_settings := fun _ => some { can_register := true, partner_group_id := 2 }
    search_partner := fun _ => none
    update_partner_ok := fun _ _ => true
    register_result := some (true, some 10) }

/-- A concrete empty dispatcher state. -/
def dispatchWitnessState : BotManagerState :=
  { bots := []
    webhook_url_base := none
    pending_registrations := [] }

/-- C7 counterexample: a contact card with **no** own-identity user id
(`contact.user_id = None`, a contact without a Telegram account) shared by
sender 5 is forwarded to the back-office phone search although its user id
does not equal the sender's id — the dispatcher does not search *only* on a
matching id. -/
theorem C7_counterexample :
    BotEffect.searchPartnerByPhone (some "998901234567") ∈
      (process_update_contact dispatchWitnessState dispatchWitnessEnv 5 none
        (some "998901234567") (some 5) (some "rt") (some 1) "Aziz" "").2 ∧
    (none : Option Int) ≠ some 5 := by
  constructor
  · decide
  · decide

/-- C7 (amended): the dispatcher proceeds to the back-office phone search
only when the contact carries no own-identity user id or that id equals
the sender's id (the source deliberately accepts contacts without a
Telegram account); when an id is present and differs, it replies with the
corrective "share your own contact" prompt, performs no search, and leaves
the state — in particular the pending-registration store — unchanged. -/
theorem C7_contact_ownership (st : BotManagerState) (env : DispatchEnv)
    (chat : Int) (cuid : Option Int) (phone : Option String) (fid : Option Int)
    (rtok : Option String) (bid : Option Nat) (uf ul : String) :
    (cuid ≠ none → cuid ≠ fid →
      (process_update_contact st env chat cuid phone fid rtok bid uf ul).1 = st ∧
      (process_update_contact st env chat cuid phone fid rtok bid uf ul).2 =
        [BotEffect.sendReply chat ReplyTag.shareOwnContact] ∧
      (∀ p, BotEffect.searchPartnerByPhone p ∉
        (process_update_contact st env chat cuid phone fid rtok bid uf ul).2)) ∧
    ((cuid = none ∨ cuid = fid) → strTruthy rtok = true →
      BotEffect.searchPartnerByPhone phone ∈
        (process_update_contact st env chat cuid phone fid rtok bid uf ul).2) := by
  constructor
  · intro hne hnm
    rw [process_update_contact, if_neg (by
      rintro (h | h)
      · exact hne h
      · exact hnm h)]
    exact ⟨rfl, rfl, by simp⟩
  · intro hcond htok
    rw [process_update_contact, if_pos hcond, handle_contact_shared]
    rw [if_neg (by simp [htok])]
    rcases hsp : env.search_partner phone with _ | partner
    · simp only [hsp]
      split <;> simp
    · simp only [hsp]
      split
      · simp
      · split <;> simp

/-- Witness for C7 (amended): a contact with user id 7 shared by sender 5
draws only the corrective prompt. -/
theorem C7_contact_ownership_witness :
    (process_update_contact dispatchWitnessState dispatchWitnessEnv 5 (some 7)
      (some "998901234567") (some 5) (some "rt") (some 1) "Aziz" "").2 =
      [BotEffect.sendReply 5 ReplyTag.shareOwnContact] := by
  have h := (C7_contact_ownership dispatchWitnessState dispatchWitnessEnv 5 (some 7)
    (some "998901234567") (some 5) (some "rt") (some 1) "Aziz" "").1
    (by decide) (by decide)
  exact h.2.1


/-- C9: on a `register_yes_` callback for a chat holding a pending
registration (with the integration token configured), the pending entry is
deleted before the single `register_partner` call is issued — the entry is
absent afterwards whatever the back-office call returns — and a repeated
`register_yes_` for the same chat issues no further `register_partner` call
and answers with the "data not found, please restart" recovery reply. -/
theorem C9_pending_cleared_before_register (st : BotManagerState) (env : DispatchEnv)
    (cd : List Char) (chat : Int) (rtok : Option String) (bid : Option Nat)
    (cq : Option String) (rd : RegistrationData)
    (hyes : registerYesTag.isPrefixOf cd = true)
    (hno : registerNoTag.isPrefixOf cd = false)
    (htok : strTruthy rtok = true)
    (hrd : st.pending_registrations.lookup chat = some rd) :
    ((handle_registration_callback st env cd chat rtok bid cq).2.countP
        (fun e => match e with | BotEffect.registerPartner _ _ _ => true | _ => false) = 1) ∧
    (handle_registration_callback st env cd chat rtok bid cq).1.pending_registrations.lookup
        chat = none ∧
    (∀ g p c, BotEffect.registerPartner g p c ∉
      (handle_registration_callback
        (handle_registration_callback st env cd chat rtok bid cq).1
        env cd chat rtok bid cq).2) ∧
    BotEffect.sendReply chat ReplyTag.dataNotFound ∈
      (handle_registration_callback
        (handle_registration_callback st env cd chat rtok bid cq).1
        env cd chat rtok bid cq).2 ∧
    (handle_registration_callback
        (handle_registration_callback st env cd chat rtok bid cq).1
        env cd chat rtok bid cq).1.pending_registrations.lookup chat = none := by
  have hfst : (handle_registration_callback st env cd chat rtok bid cq).1 =
      { st with pending_registrations := pendingErase st.pending_registrations chat } := by
    simp only [handle_registration_callback, hrd]
    rw [if_neg (by simp [hno]), if_neg (by simp [hyes]), if_neg (by simp [htok])]
    split
    · split <;> rfl
    · rfl
  have hcnt : (handle_registration_callback st env cd chat rtok bid cq).2.countP
      (fun e => match e with | BotEffect.registerPartner _ _ _ => true | _ => false) = 1 := by
    simp only [handle_registration_callback, hrd, answer_effects]
    rw [if_neg (by simp [hno]), if_neg (by simp [hyes]), if_neg (by simp [htok])]
    repeat' split
    all_goals simp [List.countP_append, List.countP_cons]
  have hlk : ({ st with
      pending_registrations := pendingErase st.pending_registrations chat } :
        BotManagerState).pending_registrations.lookup chat = none :=
    lookup_pendingErase _ _
  have hsecond : handle_registration_callback
      (handle_registration_callback st env cd chat rtok bid cq).1 env cd chat rtok bid cq =
      ({ st with pending_registrations := pendingErase st.pending_registrations chat },
        answer_effects cq CallbackNote.dataNotFoundNote ++
          [BotEffect.sendReply chat ReplyTag.dataNotFound]) := by
    rw [hfst]
    simp only [handle_registration_callback, hlk]
    rw [if_neg (by simp [hno]), if_neg (by simp [hyes]), if_neg (by simp [htok])]
  refine ⟨hcnt, by rw [hfst]; exact hlk, ?_, ?_, ?_⟩
  · intro g p c
    rw [hsecond]
    simp only [answer_effects]
    split <;> simp
  · rw [hsecond]
    simp
  · rw [hsecond]
    exact hlk

/-- A concrete pending registration for the C9 witness. -/
def pendingWitnessData : RegistrationData :=
  { phone := some "998901234567"
    first_name := "Aziz"
    last_name := ""
    chat_id := 5
    bot_id := some 1 }

/-- A concrete dispatcher state holding one pending registration for
chat 5. -/
def pendingWitnessState : BotManagerState :=
  { bots := []
    webhook_url_base := none
    pending_registrations := [(5, pendingWitnessData)] }

/-- Witness for C9: after the first `register_yes_5` callback the pending
entry for chat 5 is gone, and the repeated callback draws the recovery
reply with no further registration call. -/
theorem C9_pending_cleared_before_register_witness :
    (handle_registration_callback pendingWitnessState dispatchWitnessEnv
        (registerYesTag ++ ['5']) 5 (some "rt") (some 1)
        (some "cbq")).1.pending_registrations.lookup 5 = none ∧
    BotEffect.sendReply 5 ReplyTag.dataNotFound ∈
      (handle_registration_callback
        (handle_registration_callback pendingWitnessState dispatchWitnessEnv
          (registerYesTag ++ ['5']) 5 (some "rt") (some 1) (some "cbq")).1
        dispatchWitnessEnv (registerYesTag ++ ['5']) 5 (some "rt") (some 1)
        (some "cbq")).2 := by
  have h := C9_pending_cleared_before_register pendingWitnessState dispatchWitnessEnv
    (registerYesTag ++ ['5']) 5 (some "rt") (some 1) (some "cbq") pendingWitnessData
    (by decide) (by decide) (by decide) (by decide)
  exact ⟨h.2.1, h.2.2.2.1⟩

/-! ## src/regos/webhook_handler.py — the external event router -/

/-- A partner object embedded in a fetched document
(src/regos/webhook_handler.py lines 407-415). -/
structure WPartner where
  id : Option Int
  oked : Option OkedVal
deriving DecidableEq

/-- The `stock` sub-object of a fetched document. -/
structure WStock where
  id : Option Int
deriving DecidableEq

/-- A fetched REGOS document as read by `process_document_event` /
`process_payment_event`: the embedded partner, the `stock` object and the
flat `stock_id`. -/
structure RDocument where
  partner : Option WPartner
  stock : Option WStock
  stock_id : Option Int
deriving DecidableEq

/-- Parsing the partner's `oked` property into a Telegram chat id
(src/regos/webhook_handler.py lines 449-461): a string is stripped and
parsed as an integer (empty or unparsable stops the pipeline), a number is
truncated to an integer. -/
def parse_oked (o : OkedVal) : Option Int :=
  match o with
  | .str s => if s.trim = "" then none else s.trim.toInt?
  | .num n => some n

/-- Outward calls of the external event router. -/
inductive WEffect
  | fetchActiveBots
  | fetchDocument (docType : String) (docId : Int)
  | fetchOperations (docType : String) (docId : Int)
  | fetchStock (stockId : Int)
  | sendTelegramMessage (chatId : Int)
deriving DecidableEq

/-- An active bot row as matched by the router
(src/regos/webhook_handler.py lines 670-676). -/
structure WBot where
  bot_id : Option Nat
  telegram_token : String
  regos_integration_token : Option String
deriving DecidableEq

/-- The router's collaborators: the active-bots table, the per-type
document and line-item fetchers, the stock lookup (`true` = found) and the
outcome of the Telegram send. -/
structure WebhookEnv where
  active_bots : List WBot
  get_document : String → Int → Option RDocument
  get_operations : String → Int → Option (List Unit)
  get_stock : Int → Bool
  send_ok : Bool

/-- `process_document_event` (src/regos/webhook_handler.py lines 365-496):
fetch the document, fetch its operations, require an embedded partner,
resolve the warehouse (best effort), resolve the recipient chat id from the
partner's `oked` property, and deliver the formatted receipt.  Returns
whether a message was delivered, together with the trace of calls. -/
def process_document_event (env : WebhookEnv) (docType : String) (docId : Int) :
    Bool × List WEffect :=
  match env.get_document docType docId with
  | none => (false, [WEffect.fetchDocument docType docId])
  | some doc =>
    match env.get_operations docType docId with
    | none =>
      (false, [WEffect.fetchDocument docType docId, WEffect.fetchOperations docType docId])
    | some ops =>
      if ops.isEmpty then
        (false, [WEffect.fetchDocument docType docId, WEffect.fetchOperations docType docId])
      else
        match doc.partner with
        | none =>
          (false, [WEffect.fetchDocument docType docId, WEffect.fetchOperations docType docId])
        | some partner =>
          let stockId :=
            match doc.stock with
            | some sobj => sobj.id
            | none => doc.stock_id
          let stockEffs :=
            match stockId with
            | some sid => if sid ≠ 0 then [WEffect.fetchStock sid] else []
            | none => []
          let effs := [WEffect.fetchDocument docType docId,
            WEffect.fetchOperations docType docId] ++ stockEffs
          match partner.oked with
          | none => (false, effs)
          | some o =>
            match parse_oked o with
            | none => (false, effs)
            | some chatId =>
              (env.send_ok, effs ++ [WEffect.sendTelegramMessage chatId])

/-- `process_payment_event` (src/regos/webhook_handler.py lines 499-612):
like the document pipeline but with no line-item fetch. -/
def process_payment_event (env : WebhookEnv) (docId : Int) : Bool × List WEffect :=
  match env.get_document "payment" docId with
  | none => (false, [WEffect.fetchDocument "payment" docId])
  | some doc =>
    match doc.partner with
    | none => (false, [WEffect.fetchDocument "payment" docId])
    | some partner =>
      let stockId :=
        match doc.stock with
        | some sobj => sobj.id
        | none => doc.stock_id
      let stockEffs :=
        match stockId with
        | some sid => if sid ≠ 0 then [WEffect.fetchStock sid] else []
        | none => []
      let effs := [WEffect.fetchDocument "payment" docId] ++ stockEffs
      match partner.oked with
      | none => (false, effs)
      | some o =>
        match parse_oked o with
        | none => (false, effs)
        | some chatId =>
          (env.send_ok, effs ++ [WEffect.sendTelegramMessage chatId])

/-- The REGOS webhook envelope fields read by the handler
(src/regos/webhook_handler.py lines 615-658). -/
structure WebhookPayload where
  event_id : Option String
  connected_integration_id : Option String
  event_action : Option String
  data_id : Option Int
deriving DecidableEq

/-- The handler's returned dictionary, reduced to its four shapes. -/
inductive WebhookResult
  | duplicate
  | missingIntegrationId
  | noMatchingBot
  | processed (botId : Option Nat)
deriving DecidableEq

/-- The lazy eviction of the idempotency cache
(src/regos/webhook_handler.py lines 639-646): entries strictly older than
one hour (3600 seconds) are dropped. -/
def cleanup_events (cache : List (String × Int)) (now : Int) : List (String × Int) :=
  cache.filter fun p => ¬ (now - p.2 > 3600)

/-- The event-kind dispatch (src/regos/webhook_handler.py lines 691-781):
five document families, each run only for a truthy document id; an unknown
kind is ignored. -/
def dispatch_event (env : WebhookEnv) (act : String) (data_id : Option Int) :
    List WEffect :=
  if act = "DocWholeSalePerformed" ∨ act = "DocWholeSalePerformCanceled" then
    match data_id with
    | some did => if did ≠ 0 then (process_document_event env "wholesale" did).2 else []
    | none => []
  else if act = "DocWholeSaleReturnPerformed" ∨ act = "DocWholeSaleReturnPerformCanceled" then
    match data_id with
    | some did => if did ≠ 0 then (process_document_event env "wholesale_return" did).2 else []
    | none => []
  else if act = "DocPurchasePerformed" ∨ act = "DocPurchasePerformCanceled" then
    match data_id with
    | some did => if did ≠ 0 then (process_document_event env "purchase" did).2 else []
    | none => []
  else if act = "DocReturnsToPartnerPerformed" ∨ act = "DocReturnsToPartnerPerformCanceled" then
    match data_id with
    | some did => if did ≠ 0 then (process_document_event env "return_purchase" did).2 else []
    | none => []
  else if act = "DocPaymentPerformed" ∨ act = "DocPaymentPerformCanceled" then
    match data_id with
    | some did => if did ≠ 0 then (process_payment_event env did).2 else []
    | none => []
  else []

/-- `handle_regos_webhook` (src/regos/webhook_handler.py lines 615-792):
dedupe on a truthy `event_id` (evict expired entries, short-circuit with
`Duplicate` on a hit, otherwise mark the id as seen *before* processing),
then require `connected_integration_id`, resolve the tenant bot against the
active list, and dispatch on the event kind.  Returns the result, the cache
after the call, and the trace of calls. -/
def handle_regos_webhook (cache : List (String × Int)) (now : Int) (env : WebhookEnv)
    (w : WebhookPayload) : WebhookResult × List (String × Int) × List WEffect :=
  let dedup :=
    match w.event_id with
    | some e =>
      if e ≠ "" then
        let c := cleanup_events cache now
        if (c.lookup e).isSome then (true, c) else (false, c ++ [(e, now)])
      else (false, cache)
    | none => (false, cache)
  if dedup.1 then (WebhookResult.duplicate, dedup.2, [])
  else
    match w.connected_integration_id with
    | none => (WebhookResult.missingIntegrationId, dedup.2, [])
    | some cid =>
      if cid = "" then (WebhookResult.missingIntegrationId, dedup.2, [])
      else
        match env.active_bots.find? (fun b =>
            strTruthy b.regos_integration_token &&
              (b.regos_integration_token.getD "" == cid)) with
        | none => (WebhookResult.noMatchingBot, dedup.2, [WEffect.fetchActiveBots])
        | some bot =>
          (WebhookResult.processed bot.bot_id, dedup.2,
            WEffect.fetchActiveBots ::
              dispatch_event env (w.event_action.getD "unknown") w.data_id)

/-- The number of message deliveries in a trace. -/
def sends_count (l : List WEffect) : Nat :=
  l.countP fun e => match e with | WEffect.sendTelegramMessage _ => true | _ => false

/-- A fresh event id stays absent after a further eviction pass. -/
theorem lookup_cleanup_after_insert (cache : List (String × Int)) (e : String)
    (now₁ now₂ : Int) (hfresh : (cleanup_events cache now₁).lookup e = none)
    (hwin : now₂ - now₁ ≤ 3600) :
    ((cleanup_events (cleanup_events cache now₁ ++ [(e, now₁)]) now₂).lookup e).isSome =
      true := by
  rw [cleanup_events, List.filter_append, List.lookup_append]
  have h1 : ((cleanup_events cache now₁).filter
      fun p => ¬ (now₂ - p.2 > 3600)).lookup e = none := by
    rw [List.lookup_eq_none_iff] at hfresh ⊢
    intro p hp
    exact hfresh p (List.mem_of_mem_filter hp)
  rw [h1]
  have h2 : (([(e, now₁)] : List (String × Int)).filter
      fun p => ¬ (now₂ - p.2 > 3600)) = [(e, now₁)] := by
    rw [List.filter_cons, if_pos (by simpa using hwin)]
    rfl
  rw [h2]
  simp

/-- The cache after handling a fresh event id: evicted entries dropped, the
new id appended with its arrival time — whatever the processing outcome. -/
theorem handle_cache_after_new (cache : List (String × Int)) (now : Int)
    (env : WebhookEnv) (w : WebhookPayload) (e : String)
    (hid : w.event_id = some e) (hne : e ≠ "")
    (hfresh : (cleanup_events cache now).lookup e = none) :
    (handle_regos_webhook cache now env w).2.1 =
      cleanup_events cache now ++ [(e, now)] := by
  simp only [handle_regos_webhook, hid, hfresh, Option.isSome_none]
  rw [if_pos hne]
  repeat' split
  all_goals simp_all

/-- An event id already in the cache within the window short-circuits:
`Duplicate`, no calls at all, cache changed only by eviction. -/
theorem handle_duplicate (cache : List (String × Int)) (now : Int)
    (env : WebhookEnv) (w : WebhookPayload) (e : String)
    (hid : w.event_id = some e) (hne : e ≠ "")
    (hdup : ((cleanup_events cache now).lookup e).isSome = true) :
    handle_regos_webhook cache now env w =
      (WebhookResult.duplicate, cleanup_events cache now, []) := by
  simp only [handle_regos_webhook, hid]
  rw [if_pos hne, if_pos hdup]
  rfl

/-- The document pipeline delivers at most one message. -/
theorem sends_count_document_le_one (env : WebhookEnv) (dt : String) (did : Int) :
    sends_count (process_document_event env dt did).2 ≤ 1 := by
  simp only [process_document_event]
  repeat' split
  all_goals simp [sends_count, List.countP_append, List.countP_cons]

/-- The payment pipeline delivers at most one message. -/
theorem sends_count_payment_le_one (env : WebhookEnv) (did : Int) :
    sends_count (process_payment_event env did).2 ≤ 1 := by
  simp only [process_payment_event]
  repeat' split
  all_goals simp [sends_count, List.countP_append, List.countP_cons]

/-- The event dispatch delivers at most one message. -/
theorem sends_count_dispatch_le_one (env : WebhookEnv) (act : String)
    (did : Option Int) : sends_count (dispatch_event env act did) ≤ 1 := by
  simp only [dispatch_event]
  repeat' split
  all_goals first
    | exact sends_count_document_le_one _ _ _
    | exact sends_count_payment_le_one _ _
    | simp [sends_count]

/-- One webhook delivery results in at most one delivered message. -/
theorem sends_count_handler_le_one (cache : List (String × Int)) (now : Int)
    (env : WebhookEnv) (w : WebhookPayload) :
    sends_count (handle_regos_webhook cache now env w).2.2 ≤ 1 := by
  simp only [handle_regos_webhook]
  repeat' split
  all_goals simpa [sends_count, List.countP_cons] using sends_count_dispatch_le_one env _ _

/-- C1: after a first delivery of an envelope carrying a fresh event id, a
second delivery of the same envelope within the one-hour window returns
`Duplicate` and performs no call at all — no tenant resolution, no document
fetch, no message delivery — so the two deliveries together deliver exactly
the messages of the first call, which are at most one. -/
theorem C1_duplicate_short_circuit (cache : List (String × Int)) (now₁ now₂ : Int)
    (env : WebhookEnv) (w : WebhookPayload) (e : String)
    (hid : w.event_id = some e) (hne : e ≠ "")
    (hfresh : (cleanup_events cache now₁).lookup e = none)
    (hwin : now₂ - now₁ ≤ 3600) :
    (handle_regos_webhook (handle_regos_webhook cache now₁ env w).2.1 now₂ env w).1 =
      WebhookResult.duplicate ∧
    (handle_regos_webhook (handle_regos_webhook cache now₁ env w).2.1 now₂ env w).2.2 = [] ∧
    sends_count ((handle_regos_webhook cache now₁ env w).2.2 ++
        (handle_regos_webhook (handle_regos_webhook cache now₁ env w).2.1 now₂ env w).2.2) =
      sends_count (handle_regos_webhook cache now₁ env w).2.2 ∧
    sends_count (handle_regos_webhook cache now₁ env w).2.2 ≤ 1 := by
  have hc1 := handle_cache_after_new cache now₁ env w e hid hne hfresh
  have hdup : ((cleanup_events ((handle_regos_webhook cache now₁ env w).2.1)
      now₂).lookup e).isSome = true := by
    rw [hc1]
    exact lookup_cleanup_after_insert cache e now₁ now₂ hfresh hwin
  have h2 := handle_duplicate ((handle_regos_webhook cache now₁ env w).2.1) now₂ env w e
    hid hne hdup
  rw [h2]
  exact ⟨rfl, rfl, by simp [sends_count], sends_count_handler_le_one _ _ _ _⟩

/-- C10: an envelope with a missing or empty event id never yields
`Duplicate`, leaves the processed-events cache untouched (no insertion, no
eviction), and a repeated delivery is processed exactly like the first. -/
theorem C10_missing_event_id (cache : List (String × Int)) (now₁ now₂ : Int)
    (env : WebhookEnv) (w : WebhookPayload)
    (hid : w.event_id = none ∨ w.event_id = some "") :
    (handle_regos_webhook cache now₁ env w).1 ≠ WebhookResult.duplicate ∧
    (handle_regos_webhook cache now₁ env w).2.1 = cache ∧
    handle_regos_webhook cache now₂ env w = handle_regos_webhook cache now₁ env w := by
  have hstep : ∀ now, handle_regos_webhook cache now env w =
      (match w.connected_integration_id with
        | none => (WebhookResult.missingIntegrationId, cache, [])
        | some cid =>
          if cid = "" then (WebhookResult.missingIntegrationId, cache, [])
          else
            match env.active_bots.find? (fun b =>
                strTruthy b.regos_integration_token &&
                  (b.regos_integration_token.getD "" == cid)) with
            | none => (WebhookResult.noMatchingBot, cache, [WEffect.fetchActiveBots])
            | some bot =>
              (WebhookResult.processed bot.bot_id, cache,
                WEffect.fetchActiveBots ::
                  dispatch_event env (w.event_action.getD "unknown") w.data_id)) := by
    intro now
    rcases hid with h | h <;> simp [handle_regos_webhook, h]
  refine ⟨?_, ?_, by rw [hstep now₂, hstep now₁]⟩
  · rw [hstep now₁]
    repeat' split
    all_goals simp
  · rw [hstep now₁]
    repeat' split
    all_goals rfl

/-- A concrete router environment for the C1/C10 witnesses: one matching
bot, delivery succeeds, the document carries the chat-linked partner 42. -/
def webhookWitnessEnv : WebhookEnv :=
  { active_bots := [{ bot_id := some 1, telegram_token := "tok", regos_integration_token := some "int-1" }]
    get_document := fun _ _ => some
      { partner := some { id := some 9, oked := some (OkedVal.num 42) }
        stock := some { id := some 3 }
        stock_id := none }
    get_operations := fun _ _ => some [()]
    get_stock := fun _ => true
    send_ok := true }

/-- A concrete envelope carrying event id `evt-1`. -/
def webhookWitnessPayload : WebhookPayload :=
  { event_id := some "evt-1"
    connected_integration_id := some "int-1"
    event_action := some "DocWholeSalePerformed"
    data_id := some 3 }

/-- Witness for C1: delivering `evt-1` twice (at times 0 and 10) makes the
second call return `Duplicate` with an empty call trace. -/
theorem C1_duplicate_short_circuit_witness :
    (handle_regos_webhook
        (handle_regos_webhook [] 0 webhookWitnessEnv webhookWitnessPayload).2.1 10
        webhookWitnessEnv webhookWitnessPayload).1 = WebhookResult.duplicate ∧
    (handle_regos_webhook
        (handle_regos_webhook [] 0 webhookWitnessEnv webhookWitnessPayload).2.1 10
        webhookWitnessEnv webhookWitnessPayload).2.2 = [] := by
  have h := C1_duplicate_short_circuit [] 0 10 webhookWitnessEnv webhookWitnessPayload
    "evt-1" rfl (by decide) (by decide) (by decide)
  exact ⟨h.1, h.2.1⟩

/-- An envelope with no event id at all. -/
def webhookWitnessPayloadNoId : WebhookPayload :=
  { event_id := none
    connected_integration_id := some "int-1"
    event_action := some "DocWholeSalePerformed"
    data_id := some 3 }

/-- Witness for C10: an id-less envelope leaves a non-empty cache untouched
and its repeated delivery is handled identically. -/
theorem C10_missing_event_id_witness :
    (handle_regos_webhook [("old-evt", 5)] 9999 webhookWitnessEnv
        webhookWitnessPayloadNoId).2.1 = [("old-evt", 5)] ∧
    handle_regos_webhook [("old-evt", 5)] 12345 webhookWitnessEnv webhookWitnessPayloadNoId =
      handle_regos_webhook [("old-evt", 5)] 9999 webhookWitnessEnv
        webhookWitnessPayloadNoId := by
  have h := C10_missing_event_id [("old-evt", 5)] 9999 12345 webhookWitnessEnv
    webhookWitnessPayloadNoId (Or.inl rfl)
  exact ⟨h.2.1, h.2.2⟩
